import Mathlib

/-!
Verification of the authentication / session / generation-history core of
the Tasty Voice Generator (src/login-system.py), shallowly embedded in Lean.

Python dictionaries (`users`) are modelled as insertion-ordered association
lists; Streamlit session state and the pickle file are modelled explicitly
as a `SessionStore`; the SHA-256 digest from the Python standard library is
abstracted as a parameter `hash_password : String → String`; timestamps
(`time.time()`) are passed in as a `now : Nat` parameter; best-effort disk
writes take a `writeFails : Bool` flag saying whether the pickle dump raises.
-/

namespace LoginSystem

/-- A user record as stored in the `users` dictionary
(src/login-system.py, `create_user` lines 156-161 and
`init_authentication` lines 109-114). -/
structure UserRecord where
  username : String
  password_hash : String
  is_admin : Bool
  created_at : Nat
  deriving Repr, DecidableEq

/-- The `users` dictionary: username → record, insertion ordered. -/
abbrev Users := List (String × UserRecord)

/-- Dictionary key lookup (Python `username in users` / `users[username]`). -/
def dictLookup (k : String) : Users → Option UserRecord
  | [] => none
  | (k2, v) :: rest => if k2 = k then some v else dictLookup k rest

/-- src/login-system.py lines 131-133: the provided password is digested and
compared with the stored hash. -/
def verify_password (hash_password : String → String)
    (stored_hash provided_password : String) : Bool :=
  stored_hash == hash_password provided_password

/-- src/login-system.py lines 145-149: true iff the username is present and
the password digest matches; false otherwise (no other output). -/
def login_user (hash_password : String → String) (username password : String)
    (users : Users) : Bool :=
  match dictLookup username users with
  | some u => verify_password hash_password u.password_hash password
  | none => false

/-- State of the durable pickle file `data/users.pkl`: absent, present but
unreadable (pickle.load raises), or holding a users dictionary. -/
inductive DiskState where
  | missing
  | corrupt
  | saved (users : Users)
  deriving Repr, DecidableEq

/-- The ambient state touched by the credential store: the
`st.session_state.users_dict` cache and the durable file. -/
structure SessionStore where
  users_dict : Option Users
  disk : DiskState
  deriving Repr, DecidableEq

/-- src/login-system.py lines 135-143: always stores the dictionary in
session state; the disk write is attempted and any exception is swallowed
(`writeFails` models whether the pickle dump raises). -/
def save_users (writeFails : Bool) (users : Users) (st : SessionStore) :
    SessionStore :=
  { users_dict := some users
    disk := if writeFails then st.disk else DiskState.saved users }

/-- src/login-system.py lines 151-163: refuses a duplicate username,
otherwise inserts the new record (Python dicts append new keys at the end)
and calls save_users. Returns the (success, message) pair together with the
resulting dictionary and ambient state. -/
def create_user (hash_password : String → String) (username password : String)
    (is_admin : Bool) (now : Nat) (users : Users) (writeFails : Bool)
    (st : SessionStore) : (Bool × String) × Users × SessionStore :=
  if (dictLookup username users).isSome then
    ((false, "Username already exists"), users, st)
  else
    let newUsers := users ++ [(username,
      { username := username
        password_hash := hash_password password
        is_admin := is_admin
        created_at := now })]
    ((true, "User created successfully"), newUsers,
      save_users writeFails newUsers st)

/-- src/login-system.py lines 165-178: the self-deletion check comes first,
then the existence check, then `del users[username]` and save_users. -/
def delete_user (username : String) (users : Users) (current_user : String)
    (writeFails : Bool) (st : SessionStore) :
    (Bool × String) × Users × SessionStore :=
  if username = current_user then
    ((false, "You cannot delete your own account"), users, st)
  else if dictLookup username users = none then
    ((false, "User doesn\x27t exist"), users, st)
  else
    let newUsers := users.filter (fun p => p.1 != username)
    ((true, "User \x27" ++ username ++ "\x27 deleted successfully"), newUsers,
      save_users writeFails newUsers st)

/-- src/login-system.py lines 72-125: returns the cached session-state
dictionary when present; otherwise loads the pickle file when it is readable;
otherwise builds the default admin record (password from the environment,
modelled by `default_password`), caches it and best-effort saves it. The
`st.warning` on an unreadable file is display-only and not modelled. -/
def init_authentication (hash_password : String → String)
    (default_password : String) (now : Nat) (writeFails : Bool)
    (st : SessionStore) : Users × SessionStore :=
  match st.users_dict with
  | some users => (users, st)
  | none =>
    match st.disk with
    | DiskState.saved users => (users, { st with users_dict := some users })
    | _ =>
      let admin_user : UserRecord :=
        { username := "admin"
          password_hash := hash_password default_password
          is_admin := true
          created_at := now }
      let users : Users := [("admin", admin_user)]
      (users,
        { users_dict := some users
          disk := if writeFails then st.disk else DiskState.saved users })

/-- The per-session login state kept in Streamlit session state:
`logged_in`, `username`, `is_admin` (set on login, lines 480-482) and the
admin-view flag `show_admin` (lines 1063-1064, 1108-1109). -/
structure Session where
  logged_in : Bool
  username : Option String
  is_admin : Bool
  show_admin : Bool
  deriving Repr, DecidableEq

/-- The Exit button handler, src/login-system.py lines 1112-1116: it assigns
`logged_in = False`, `username = None`, `is_admin = False`; no other session
field is written. -/
def exit_action (s : Session) : Session :=
  { s with logged_in := false, username := none, is_admin := false }

/-- Outcome of `requests.post` to the provider: a 2xx response with a byte
body, a non-2xx response (`raise_for_status` raises with the status and the
response body text attached), or a network error with no response. -/
inductive HttpResult where
  | ok (content : List Nat)
  | httpError (status : Nat) (body : String)
  | networkError (msg : String)
  deriving Repr, DecidableEq

/-- True on any non-2xx or network outcome. -/
def HttpResult.isFailure : HttpResult → Bool
  | HttpResult.ok _ => false
  | _ => true

/-- src/login-system.py lines 620-643 (`generate_voice`): returns the
response content on 2xx; on a RequestException (non-2xx after
raise_for_status, or a network error) it shows one or two st.error
messages and returns None. First component: the returned value; second:
the error messages displayed to the user. -/
def generate_voice (resp : HttpResult) : Option (List Nat) × List String :=
  match resp with
  | HttpResult.ok content => (some content, [])
  | HttpResult.httpError status body =>
    (none, ["Error generating voice: " ++ toString status,
            "API response: " ++ body])
  | HttpResult.networkError msg =>
    (none, ["Error generating voice: " ++ msg])

/-- The `type` field of a history entry: `tts` or `voice_conversion`. -/
inductive GenKind where
  | tts
  | voice_conversion
  deriving Repr, DecidableEq

/-- One entry of the per-user `recent_generations_<username>` list
(src/login-system.py lines 1228-1235 and 1340-1347); the Python `type`
field is named `kind` here (`type` is reserved in Lean). -/
structure GenRecord where
  text : String
  voice : String
  model : String
  audio_data : List Nat
  kind : GenKind
  account : String
  deriving Repr, DecidableEq

/-- src/login-system.py line 1229: the text stored with a TTS record is
`text_input[:50] + "..."` when the input exceeds 50 characters, else the
input itself. -/
def tts_record_text (text_input : String) : String :=
  if text_input.length > 50 then text_input.take 50 ++ "..." else text_input

/-- The GENERATE VOICE handler after the empty-text guard,
src/login-system.py lines 1206-1235: calls generate_voice and, only when
the returned audio is truthy in Python (not None and not empty bytes),
appends one record to the per-user history. Returns the new history
together with the error messages displayed. -/
def tts_generate_step (resp : HttpResult) (text_input voice model account : String)
    (history : List GenRecord) : List GenRecord × List String :=
  let r := generate_voice resp
  match r.1 with
  | some bs =>
    if bs.isEmpty then (history, r.2)
    else
      (history ++ [{ text := tts_record_text text_input
                     voice := voice
                     model := model
                     audio_data := bs
                     kind := GenKind.tts
                     account := account }], r.2)
  | none => (history, r.2)

/-- The Recent Generations display, src/login-system.py lines 1244-1252
(TTS tab, filter `type == "tts"`) and 1356-1364 (voice changer tab, filter
`type == "voice_conversion"`): filter the user's history by kind, keep the
last 5 (Python `[-5:]`), and render them reversed (most recent first). An
absent or empty history renders nothing. -/
def recent_generations (kind : GenKind) (history : List GenRecord) :
    List GenRecord :=
  let matching := history.filter (fun g => g.kind == kind)
  (matching.drop (matching.length - 5)).reverse

/-- Fixture: the default admin record (digests are taken verbatim in
fixtures, paired with the identity digest function in witnesses). -/
def adminRecord : UserRecord :=
  { username := "admin", password_hash := "admin123", is_admin := true
    created_at := 0 }

/-- Fixture: a second, non-admin record. -/
def carolRecord : UserRecord :=
  { username := "carol", password_hash := "pwc", is_admin := false
    created_at := 1 }

/-- Fixture: a two-user store. -/
def demoUsers : Users := [("admin", adminRecord), ("carol", carolRecord)]

/-- Looking up a key that is absent from a dictionary finds the record
appended for it at the end. -/
theorem dictLookup_append_self (k : String) (r : UserRecord) (users : Users)
    (h : dictLookup k users = none) :
    dictLookup k (users ++ [(k, r)]) = some r := by
  induction users with
  | nil => simp [dictLookup]
  | cons hd tl ih =>
    obtain ⟨k2, v⟩ := hd
    simp only [dictLookup] at h
    simp only [List.cons_append, dictLookup]
    by_cases hk : k2 = k
    · rw [if_pos hk] at h
      exact absurd h (by simp)
    · rw [if_neg hk] at h
      rw [if_neg hk]
      exact ih h

/-- C1: on a store not containing `username`, `create_user` makes a
subsequent `login_user` with the same password return true, and
`login_user` with any password whose digest differs return false. -/
theorem create_then_login (hash_password : String → String)
    (username password wrong : String) (is_admin : Bool) (now : Nat)
    (users : Users) (writeFails : Bool) (st : SessionStore)
    (habs : dictLookup username users = none)
    (hw : hash_password wrong ≠ hash_password password) :
    login_user hash_password username password
      (create_user hash_password username password is_admin now users
        writeFails st).2.1 = true ∧
    login_user hash_password username wrong
      (create_user hash_password username password is_admin now users
        writeFails st).2.1 = false := by
  have hnot : (dictLookup username users).isSome = false := by
    rw [habs]; rfl
  have hfound := dictLookup_append_self username
    { username := username, password_hash := hash_password password
      is_admin := is_admin, created_at := now } users habs
  constructor
  · simp [create_user, hnot, login_user, hfound, verify_password]
  · simp [create_user, hnot, login_user, hfound, verify_password]
    exact fun h => absurd h.symm hw

/-- Witness for C1 at a concrete store, user and digest function. -/
theorem create_then_login_witness :
    dictLookup "bob" ([] : Users) = none ∧
    (fun s : String => s) "wrong" ≠ (fun s : String => s) "pw123" ∧
    (login_user (fun s : String => s) "bob" "pw123"
      (create_user (fun s : String => s) "bob" "pw123" false 0 [] false
        ⟨none, DiskState.missing⟩).2.1 = true ∧
     login_user (fun s : String => s) "bob" "wrong"
      (create_user (fun s : String => s) "bob" "pw123" false 0 [] false
        ⟨none, DiskState.missing⟩).2.1 = false) :=
  ⟨rfl, by decide,
    create_then_login (fun s => s) "bob" "pw123" "wrong" false 0 [] false
      ⟨none, DiskState.missing⟩ rfl (by decide)⟩

/-- C5: `create_user` with a username already present fails with the
duplicate-user error and returns the store and ambient state unchanged. -/
theorem create_user_duplicate (hash_password : String → String)
    (username password : String) (is_admin : Bool) (now : Nat)
    (users : Users) (writeFails : Bool) (st : SessionStore)
    (h : (dictLookup username users).isSome = true) :
    create_user hash_password username password is_admin now users
      writeFails st = ((false, "Username already exists"), users, st) := by
  simp [create_user, h]

/-- Witness for C5 on the two-user fixture store. -/
theorem create_user_duplicate_witness :
    (dictLookup "admin" demoUsers).isSome = true ∧
    create_user (fun s : String => s) "admin" "x" false 7 demoUsers false
      ⟨none, DiskState.missing⟩ =
      ((false, "Username already exists"), demoUsers,
        ⟨none, DiskState.missing⟩) :=
  ⟨by decide,
    create_user_duplicate (fun s => s) "admin" "x" false 7 demoUsers false
      ⟨none, DiskState.missing⟩ (by decide)⟩

/-- C6: deleting one's own account always fails with the self-deletion
error and leaves the store and ambient state unchanged, whether or not the
username is present. -/
theorem delete_user_self (username : String) (users : Users)
    (writeFails : Bool) (st : SessionStore) :
    delete_user username users username writeFails st =
      ((false, "You cannot delete your own account"), users, st) := by
  simp [delete_user]

/-- C7: a login against an absent username and a login with a wrong
password against a present username produce the same observable result:
both return false (and nothing else). -/
theorem login_failures_indistinguishable (hash_password : String → String)
    (u1 p1 u2 p2 : String) (users1 users2 : Users) (r : UserRecord)
    (h1 : dictLookup u1 users1 = none)
    (h2 : dictLookup u2 users2 = some r)
    (hw : r.password_hash ≠ hash_password p2) :
    login_user hash_password u1 p1 users1 = false ∧
    login_user hash_password u2 p2 users2 = false ∧
    login_user hash_password u1 p1 users1 =
      login_user hash_password u2 p2 users2 := by
  have ha : login_user hash_password u1 p1 users1 = false := by
    simp [login_user, h1]
  have hb : login_user hash_password u2 p2 users2 = false := by
    simp [login_user, h2, verify_password]
    exact hw
  exact ⟨ha, hb, by rw [ha, hb]⟩

/-- Witness for C7: empty store vs. fixture store with a mismatched digest. -/
theorem login_failures_indistinguishable_witness :
    dictLookup "bob" ([] : Users) = none ∧
    dictLookup "carol" demoUsers = some carolRecord ∧
    carolRecord.password_hash ≠ (fun s : String => s) "x" ∧
    (login_user (fun s : String => s) "bob" "p" [] = false ∧
     login_user (fun s : String => s) "carol" "x" demoUsers = false ∧
     login_user (fun s : String => s) "bob" "p" [] =
       login_user (fun s : String => s) "carol" "x" demoUsers) :=
  ⟨rfl, by decide, by decide,
    login_failures_indistinguishable (fun s => s) "bob" "p" "carol" "x" []
      demoUsers carolRecord rfl (by decide) (by decide)⟩

/-- C2 counterexample: from an authenticated admin session with the admin
view open, the Exit action leaves `show_admin` set, so the admin-view flag
is not reset to normal as the claim states. -/
theorem exit_action_show_admin_cex :
    (exit_action { logged_in := true, username := some "admin"
                   is_admin := true, show_admin := true }).show_admin ≠
      false := by
  decide

/-- C2 amended: the Exit action unconditionally clears `logged_in`,
`username` and `is_admin`, but leaves the admin-view flag `show_admin`
unchanged. -/
theorem exit_action_clears_core_fields (s : Session) :
    exit_action s =
      { logged_in := false, username := none, is_admin := false
        show_admin := s.show_admin } :=
  rfl

/-- C3: when the provider request fails (non-2xx response or network
error), `generate_voice` returns None (no exception: the function is
total), at least one error message is surfaced to the user, and the TTS
handler appends nothing — the history is exactly what it was before. -/
theorem provider_failure_no_append (resp : HttpResult)
    (text voice model account : String) (history : List GenRecord)
    (hfail : resp.isFailure = true) :
    (generate_voice resp).1 = none ∧
    (generate_voice resp).2 ≠ [] ∧
    (tts_generate_step resp text voice model account history).1 = history := by
  cases resp with
  | ok content => simp [HttpResult.isFailure] at hfail
  | httpError status body => simp [generate_voice, tts_generate_step]
  | networkError msg => simp [generate_voice, tts_generate_step]

/-- Witness for C3 at an HTTP 401 response and a one-record history. -/
theorem provider_failure_no_append_witness :
    (HttpResult.httpError 401 "Unauthorized").isFailure = true ∧
    ((generate_voice (HttpResult.httpError 401 "Unauthorized")).1 = none ∧
     (generate_voice (HttpResult.httpError 401 "Unauthorized")).2 ≠ [] ∧
     (tts_generate_step (HttpResult.httpError 401 "Unauthorized") "hello"
        "Rachel" "Multilingual v2 (Enhanced)" "Default Account" []).1 = []) :=
  ⟨rfl,
    provider_failure_no_append (HttpResult.httpError 401 "Unauthorized")
      "hello" "Rachel" "Multilingual v2 (Enhanced)" "Default Account" [] rfl⟩

/-- Taking the last `n` elements of a list and reversing them is taking
`n` from the reversed list. -/
theorem drop_length_sub_reverse {α : Type} (l : List α) (n : Nat) :
    (l.drop (l.length - n)).reverse = l.reverse.take n := by
  have h := List.rtake_eq_reverse_take_reverse l n
  unfold List.rtake at h
  rw [h, List.reverse_reverse]

/-- C4: the recent-generations view shows at most 5 records, all of the
requested kind, and exactly the most recently appended matching records
most-recent-first (the first 5 of the reversed matching subsequence); an
empty history yields an empty view, not an error. -/
theorem recent_generations_spec (kind : GenKind) (history : List GenRecord) :
    (recent_generations kind history).length ≤ 5 ∧
    (∀ g ∈ recent_generations kind history, g.kind = kind) ∧
    recent_generations kind history =
      ((history.filter (fun g => g.kind == kind)).reverse).take 5 ∧
    recent_generations kind ([] : List GenRecord) = [] := by
  have hdef : recent_generations kind history =
      ((history.filter (fun g => g.kind == kind)).drop
        ((history.filter (fun g => g.kind == kind)).length - 5)).reverse := rfl
  have heq : recent_generations kind history =
      ((history.filter (fun g => g.kind == kind)).reverse).take 5 := by
    rw [hdef]
    exact drop_length_sub_reverse _ 5
  refine ⟨?_, ?_, heq, rfl⟩
  · rw [heq]
    exact List.length_take_le 5 _
  · intro g hg
    rw [heq] at hg
    have hmem : g ∈ history.filter (fun g => g.kind == kind) :=
      List.mem_reverse.mp (List.mem_of_mem_take hg)
    have := (List.mem_filter.mp hmem).2
    simpa using this

set_option maxRecDepth 10000 in
/-- C8 counterexample: a successful generation from a 51-character input
appends a record whose stored text is not the submitted text (it is the
first 50 characters followed by an ellipsis). -/
theorem tts_stored_text_cex :
    List.map GenRecord.text
      (tts_generate_step (HttpResult.ok [1])
        (String.mk (List.replicate 51 (Char.ofNat 97))) "Rachel"
        "Multilingual v2 (Enhanced)" "Default Account" []).1 ≠
      [String.mk (List.replicate 51 (Char.ofNat 97))] := by
  decide

/-- C8 amended: a successful generation with non-empty audio appends one
record whose stored text is the submitted text truncated at 50 characters:
it equals the submitted text when that text has at most 50 characters, and
equals the first 50 characters followed by an ellipsis otherwise. -/
theorem tts_stored_text_truncation (content : List Nat)
    (text voice model account : String) (history : List GenRecord)
    (hc : content ≠ []) :
    (tts_generate_step (HttpResult.ok content) text voice model account
        history).1 =
      history ++ [{ text := tts_record_text text, voice := voice
                    model := model, audio_data := content
                    kind := GenKind.tts, account := account }] ∧
    (text.length ≤ 50 → tts_record_text text = text) ∧
    (50 < text.length → tts_record_text text = text.take 50 ++ "...") := by
  refine ⟨?_, ?_, ?_⟩
  · simp [tts_generate_step, generate_voice, hc]
  · intro h
    simp [tts_record_text, Nat.not_lt.mpr h]
  · intro h
    simp [tts_record_text, h]

/-- Witness for C8 amended at a short text and a one-byte audio body. -/
theorem tts_stored_text_truncation_witness :
    ([1] : List Nat) ≠ [] ∧
    ((tts_generate_step (HttpResult.ok [1]) "hello" "Rachel"
        "Multilingual v2 (Enhanced)" "Default Account" []).1 =
      [] ++ [{ text := tts_record_text "hello", voice := "Rachel"
               model := "Multilingual v2 (Enhanced)", audio_data := [1]
               kind := GenKind.tts, account := "Default Account" }] ∧
     ("hello".length ≤ 50 → tts_record_text "hello" = "hello") ∧
     (50 < "hello".length →
        tts_record_text "hello" = "hello".take 50 ++ "...")) :=
  ⟨by decide,
    tts_stored_text_truncation [1] "hello" "Rachel"
      "Multilingual v2 (Enhanced)" "Default Account" [] (by decide)⟩

/-- C9: init_authentication is idempotent within a session: whatever the
first call loaded or created, a second call (with any default password,
time, or disk-write behaviour) returns that same mapping and leaves the
session state exactly as it was — no duplicate or reset records and no
re-read of durable storage over the in-memory store. -/
theorem init_authentication_idempotent (hash_password : String → String)
    (p1 p2 : String) (n1 n2 : Nat) (w1 w2 : Bool) (st : SessionStore) :
    init_authentication hash_password p2 n2 w2
        (init_authentication hash_password p1 n1 w1 st).2 =
      init_authentication hash_password p1 n1 w1 st := by
  obtain ⟨ud, disk⟩ := st
  cases ud with
  | some users => rfl
  | none => cases disk <;> rfl

/-- C10: durable persistence is best-effort: when the in-memory
precondition holds, create_user and delete_user return success and produce
the same result and in-memory store whether the disk write raises or
succeeds. -/
theorem persistence_best_effort (hash_password : String → String)
    (cu cp : String) (ca : Bool) (now : Nat) (du cur : String)
    (users : Users) (st : SessionStore) (r : UserRecord)
    (hc : dictLookup cu users = none)
    (hd1 : du ≠ cur)
    (hd2 : dictLookup du users = some r) :
    ((create_user hash_password cu cp ca now users true st).1 =
        (create_user hash_password cu cp ca now users false st).1 ∧
      (create_user hash_password cu cp ca now users true st).2.1 =
        (create_user hash_password cu cp ca now users false st).2.1 ∧
      (create_user hash_password cu cp ca now users true st).1.1 = true) ∧
    ((delete_user du users cur true st).1 =
        (delete_user du users cur false st).1 ∧
      (delete_user du users cur true st).2.1 =
        (delete_user du users cur false st).2.1 ∧
      (delete_user du users cur true st).1.1 = true) := by
  have hnot : (dictLookup cu users).isSome = false := by rw [hc]; rfl
  have hne : dictLookup du users ≠ none := by
    rw [hd2]
    exact Option.some_ne_none r
  refine ⟨⟨?_, ?_, ?_⟩, ?_, ?_, ?_⟩ <;>
    simp [create_user, delete_user, hnot, hd1, hne]

/-- Witness for C10 on the fixture store: creating absent `bob` and, as
`admin`, deleting present `carol`, with failing and succeeding writes. -/
theorem persistence_best_effort_witness :
    dictLookup "bob" demoUsers = none ∧ "carol" ≠ "admin" ∧
    dictLookup "carol" demoUsers = some carolRecord ∧
    (((create_user (fun s : String => s) "bob" "pw123" false 9 demoUsers
          true ⟨none, DiskState.missing⟩).1 =
        (create_user (fun s : String => s) "bob" "pw123" false 9 demoUsers
          false ⟨none, DiskState.missing⟩).1 ∧
      (create_user (fun s : String => s) "bob" "pw123" false 9 demoUsers
          true ⟨none, DiskState.missing⟩).2.1 =
        (create_user (fun s : String => s) "bob" "pw123" false 9 demoUsers
          false ⟨none, DiskState.missing⟩).2.1 ∧
      (create_user (fun s : String => s) "bob" "pw123" false 9 demoUsers
          true ⟨none, DiskState.missing⟩).1.1 = true) ∧
     ((delete_user "carol" demoUsers "admin" true
          ⟨none, DiskState.missing⟩).1 =
        (delete_user "carol" demoUsers "admin" false
          ⟨none, DiskState.missing⟩).1 ∧
      (delete_user "carol" demoUsers "admin" true
          ⟨none, DiskState.missing⟩).2.1 =
        (delete_user "carol" demoUsers "admin" false
          ⟨none, DiskState.missing⟩).2.1 ∧
      (delete_user "carol" demoUsers "admin" true
          ⟨none, DiskState.missing⟩).1.1 = true)) :=
  ⟨by decide, by decide, by decide,
    persistence_best_effort (fun s => s) "bob" "pw123" false 9 "carol"
      "admin" demoUsers ⟨none, DiskState.missing⟩ carolRecord (by decide)
      (by decide) (by decide)⟩

end LoginSystem
